import Mathlib

/-!
# Verification of the `infrared` aggregation engines

A shallow embedding of the two aggregation engines of the repository:

* the Windowed Activity Engine (`model.rs`, `storage.rs`, `aggregation.rs`):
  warmth-status derivation, the SQL window queries, warmth computation and
  alert generation;
* the Multi-Source Aggregator (`dashboard.rs`): issue records, the
  failure-tolerant merge, sorting, country filtering and summarization.

Modelling conventions:

* Rust `f64` values (`recent_average`, ratios) are modelled as exact
  rationals `ℚ`; `i64`/`i32`/`usize` as `Int`/`Nat`.
* Unix timestamps of stored signals are server-assigned (`Utc::now`), hence
  non-negative; they are modelled as `Nat`, on which SQLite's truncating
  integer division coincides with floor division.  The SQL range predicates
  `ts >= now - k` keep their meaning under `Nat` truncated subtraction
  because a clamped-to-zero lower bound is vacuous for `Nat` timestamps,
  exactly as a negative lower bound is for non-negative ones.
* The storage layer is modelled two ways: as a pure list of signals (the
  SQL queries become list computations), and as an abstract record of
  fallible queries (`Except`) for the failure-propagation claims.
* Async adapter calls return `Except String (List Issue)`; the barrier join
  of `tokio::join!` is modelled by passing the five completed results.
-/

/-- `model.rs` `WarmthStatus`: health classification of a bucket. -/
inductive WarmthStatus where
  | alive
  | stressed
  | collapsing
  | dead
  deriving DecidableEq, Repr

/-- `model.rs` `WarmthStatus::from_activity(current: i64, recent_average: f64)`.
The `f64` average and the ratio `current / recent_average` are modelled as
exact rationals. -/
def WarmthStatus.from_activity (current : Int) (recent_average : ℚ) : WarmthStatus :=
  if recent_average ≤ 0 then
    WarmthStatus.alive
  else
    let q : ℚ := (current : ℚ) / recent_average
    if current = 0 then WarmthStatus.dead
    else if q < 1/5 then WarmthStatus.collapsing
    else if q < 4/5 then WarmthStatus.stressed
    else WarmthStatus.alive

example : WarmthStatus.from_activity 100 100 = WarmthStatus.alive := by
  norm_num [WarmthStatus.from_activity]
example : WarmthStatus.from_activity 80 100 = WarmthStatus.alive := by
  norm_num [WarmthStatus.from_activity]
example : WarmthStatus.from_activity 79 100 = WarmthStatus.stressed := by
  norm_num [WarmthStatus.from_activity]
example : WarmthStatus.from_activity 20 100 = WarmthStatus.stressed := by
  norm_num [WarmthStatus.from_activity]
example : WarmthStatus.from_activity 19 100 = WarmthStatus.collapsing := by
  norm_num [WarmthStatus.from_activity]
example : WarmthStatus.from_activity 1 100 = WarmthStatus.collapsing := by
  norm_num [WarmthStatus.from_activity]
example : WarmthStatus.from_activity 0 100 = WarmthStatus.dead := by
  norm_num [WarmthStatus.from_activity]
example : WarmthStatus.from_activity 0 0 = WarmthStatus.alive := by
  norm_num [WarmthStatus.from_activity]
example : WarmthStatus.from_activity 10 0 = WarmthStatus.alive := by
  norm_num [WarmthStatus.from_activity]

/-- C1: the warmth status derivation partitions the `(current, average)`
plane as specified: `Alive` when `average ≤ 0`; `Dead` when `average > 0`
and `current = 0`; `Collapsing` when `average > 0` and
`0 < current < 0.2·average`; `Stressed` when `average > 0` and
`0.2·average ≤ current < 0.8·average`; `Alive` when
`current ≥ 0.8·average`.  Both boundaries are inclusive toward the higher
status. -/
theorem warmth_from_activity_spec (current : Int) (average : ℚ)
    (hcur : 0 ≤ current) :
    (average ≤ 0 → WarmthStatus.from_activity current average = WarmthStatus.alive) ∧
    (0 < average → current = 0 →
      WarmthStatus.from_activity current average = WarmthStatus.dead) ∧
    (0 < average → 0 < (current : ℚ) → (current : ℚ) < 1/5 * average →
      WarmthStatus.from_activity current average = WarmthStatus.collapsing) ∧
    (0 < average → 1/5 * average ≤ (current : ℚ) → (current : ℚ) < 4/5 * average →
      WarmthStatus.from_activity current average = WarmthStatus.stressed) ∧
    (4/5 * average ≤ (current : ℚ) →
      WarmthStatus.from_activity current average = WarmthStatus.alive) := by
  unfold WarmthStatus.from_activity
  refine ⟨?_, ?_, ?_, ?_, ?_⟩
  · intro h
    simp [h]
  · intro hpos hc0
    rw [if_neg (not_le.mpr hpos), if_pos hc0]
  · intro hpos hc0 hlt
    have hcne : current ≠ 0 := by
      intro h
      rw [h] at hc0
      simp at hc0
    rw [if_neg (not_le.mpr hpos), if_neg hcne,
      if_pos (by rw [div_lt_iff hpos]; exact hlt)]
  · intro hpos hge hlt
    have hc0 : (0 : ℚ) < (current : ℚ) := lt_of_lt_of_le (by positivity) hge
    have hcne : current ≠ 0 := by
      intro h
      rw [h] at hc0
      simp at hc0
    rw [if_neg (not_le.mpr hpos), if_neg hcne,
      if_neg (not_lt.mpr (by rw [le_div_iff hpos]; exact hge)),
      if_pos (by rw [div_lt_iff hpos]; exact hlt)]
  · intro hge
    by_cases hpos : average ≤ 0
    · simp [hpos]
    push_neg at hpos
    have hc0 : (0 : ℚ) < (current : ℚ) := lt_of_lt_of_le (by positivity) hge
    have hcne : current ≠ 0 := by
      intro h
      rw [h] at hc0
      simp at hc0
    have h45 : (4/5 : ℚ) ≤ (current : ℚ) / average := by
      rw [le_div_iff hpos]; exact hge
    have h15 : (1/5 : ℚ) ≤ (current : ℚ) / average :=
      le_trans (by norm_num) h45
    rw [if_neg (not_le.mpr hpos), if_neg hcne,
      if_neg (not_lt.mpr h15), if_neg (not_lt.mpr h45)]

/-- Witness for C1 at concrete inputs. -/
theorem warmth_from_activity_spec_witness :
    (0 : Int) ≤ 20 ∧
    WarmthStatus.from_activity 20 100 = WarmthStatus.stressed := by
  refine ⟨by decide, ?_⟩
  exact (warmth_from_activity_spec 20 100 (by decide)).2.2.2.1 (by norm_num)
    (by norm_num) (by norm_num)

/-- `model.rs` `LifeSignal` as stored by `storage.rs`: one row of the
`life_signals` table, `(bucket, ts, weight)`, with the server-assigned Unix
timestamp in seconds modelled as `Nat` and the `i32` weight as `Int`. -/
structure Signal where
  bucket : String
  ts : Nat
  weight : Int
  deriving DecidableEq, Repr

/-- `storage.rs` `Storage::query_bucket_window`: sum of weights of signals of
`bucket` with `start_ts ≤ ts ≤ now` where `start_ts = now - window_minutes*60`
(`COALESCE(SUM(weight), 0)`). -/
def query_bucket_window (db : List Signal) (bucket : String)
    (window_minutes now : Nat) : Int :=
  let window_seconds := window_minutes * 60
  let start_ts := now - window_seconds
  ((db.filter (fun s =>
    decide (s.bucket = bucket ∧ start_ts ≤ s.ts ∧ s.ts ≤ now))).map
      (fun s => s.weight)).sum

/-- `storage.rs` `Storage::compute_recent_average`: the SQL query groups the
signals of `bucket` with `start_ts ≤ ts < end_ts` (where
`end_ts = now - window_seconds` and `start_ts = end_ts - window_seconds*num_windows`)
by `window_id = ts / window_seconds`, sums `weight` per group, and returns
`COALESCE(AVG(window_total), 0.0)`: the mean of the per-group sums over the
groups that exist, `0` when there are none. -/
def compute_recent_average (db : List Signal) (bucket : String)
    (window_minutes num_windows now : Nat) : ℚ :=
  let window_seconds := window_minutes * 60
  let end_ts := now - window_seconds
  let start_ts := end_ts - window_seconds * num_windows
  let rows := db.filter (fun s =>
    decide (s.bucket = bucket ∧ start_ts ≤ s.ts ∧ s.ts < end_ts))
  let ids := (rows.map (fun s => s.ts / window_seconds)).dedup
  if ids.isEmpty then 0
  else
    let totals := ids.map (fun i =>
      ((rows.filter (fun s => s.ts / window_seconds == i)).map
        (fun s => s.weight)).sum)
    ((totals.sum : Int) : ℚ) / (ids.length : ℚ)

/-- `storage.rs` `Storage::get_last_seen`: `MAX(ts)` over the bucket's
signals, `none` when the bucket has none. -/
def get_last_seen (db : List Signal) (bucket : String) : Option Nat :=
  ((db.filter (fun s => s.bucket == bucket)).map (fun s => s.ts)).max?

/-- `storage.rs` `Storage::get_all_known_buckets`: `SELECT DISTINCT bucket`. -/
def get_all_known_buckets (db : List Signal) : List String :=
  (db.map (fun s => s.bucket)).dedup

/-- `aggregation.rs` `NUM_HISTORICAL_WINDOWS`. -/
def NUM_HISTORICAL_WINDOWS : Nat := 6

/-- `model.rs` `WarmthResponse`. -/
structure WarmthResponse where
  bucket : String
  window_minutes : Nat
  current_window_total : Int
  recent_average : ℚ
  status : WarmthStatus
  deriving Repr

/-- `aggregation.rs` `compute_warmth` over the pure storage model: current
window total, recent average over `NUM_HISTORICAL_WINDOWS` windows, derived
status. -/
def compute_warmth (db : List Signal) (bucket : String)
    (window_minutes now : Nat) : WarmthResponse :=
  let current_window_total := query_bucket_window db bucket window_minutes now
  let recent_average :=
    compute_recent_average db bucket window_minutes NUM_HISTORICAL_WINDOWS now
  { bucket := bucket
    window_minutes := window_minutes
    current_window_total := current_window_total
    recent_average := recent_average
    status := WarmthStatus.from_activity current_window_total recent_average }

/-- The recent-average computation as the specification words it: consider
exactly the signals of the bucket whose timestamps lie in the half-open
interval `[now - window_minutes*(num_windows+1), now - window_minutes)`
(in seconds), group them into epoch-aligned bins by
`bin = floor(ts / window_seconds)`, sum the weight of each bin, and average
over only the bins that contain at least one signal; `0` when no signal
falls in the interval. -/
def recent_average_spec (db : List Signal) (bucket : String)
    (window_minutes num_windows now : Nat) : ℚ :=
  let window_seconds := window_minutes * 60
  let considered := db.filter (fun s =>
    decide (s.bucket = bucket ∧ now - window_seconds * (num_windows + 1) ≤ s.ts ∧
      s.ts < now - window_seconds))
  let bins := (considered.map (fun s => s.ts / window_seconds)).dedup
  if bins.isEmpty then 0
  else
    let bin_totals := bins.map (fun b =>
      ((considered.filter (fun s => s.ts / window_seconds == b)).map
        (fun s => s.weight)).sum)
    ((bin_totals.sum : Int) : ℚ) / (bins.length : ℚ)

/-- C3: `compute_recent_average` behaves exactly as specified — it considers
the signals in `[now - w*(n+1), now - w)`, bins them epoch-aligned by
floored division, averages the per-bin sums over only the nonempty bins,
returns `0` when the interval holds no signal — and `compute_warmth` invokes
it with the fixed history depth of 6 windows. -/
theorem compute_recent_average_spec (db : List Signal) (bucket : String)
    (window_minutes num_windows now : Nat) :
    compute_recent_average db bucket window_minutes num_windows now =
      recent_average_spec db bucket window_minutes num_windows now ∧
    (db.filter (fun s =>
        decide (s.bucket = bucket ∧
          now - window_minutes * 60 * (num_windows + 1) ≤ s.ts ∧
          s.ts < now - window_minutes * 60)) = [] →
      compute_recent_average db bucket window_minutes num_windows now = 0) ∧
    (compute_warmth db bucket window_minutes now).recent_average =
      compute_recent_average db bucket window_minutes 6 now := by
  have key : ∀ w : Nat, now - w - w * num_windows = now - w * (num_windows + 1) := by
    intro w
    rw [Nat.sub_sub, Nat.mul_succ, Nat.add_comm]
  have heq : compute_recent_average db bucket window_minutes num_windows now =
      recent_average_spec db bucket window_minutes num_windows now := by
    unfold compute_recent_average recent_average_spec
    simp only [key]
  refine ⟨heq, ?_, rfl⟩
  intro hempty
  rw [heq]
  unfold recent_average_spec
  simp only [hempty, List.map_nil, List.dedup_nil, List.isEmpty_nil, if_pos]

/-- `model.rs` `Alert`. -/
structure Alert where
  bucket : String
  status : WarmthStatus
  last_seen_timestamp : Option Nat
  recent_average : ℚ
  message : String
  deriving Repr

/-- `model.rs` `AlertsResponse`. -/
structure AlertsResponse where
  alerts : List Alert
  lookback_minutes : Nat
  deriving Repr

/-- The `Debug` rendering of a `WarmthStatus`, as used by the fallback arm of
`generate_alert_message`. -/
def WarmthStatus.debugName : WarmthStatus → String
  | WarmthStatus.alive => "Alive"
  | WarmthStatus.stressed => "Stressed"
  | WarmthStatus.collapsing => "Collapsing"
  | WarmthStatus.dead => "Dead"

/-- One-decimal rendering of a rational, modelling Rust's `{:.1}` float
formatting on the non-negative values that occur here (truncation to
tenths).  No claim depends on the exact digits of a message. -/
def fmt1 (q : ℚ) : String :=
  let t : Int := Rat.floor (q * 10)
  toString (t / 10) ++ "." ++ toString (t % 10).natAbs

/-- `aggregation.rs` `generate_alert_message`.  The `as i32` cast of the
percentage is modelled by `Rat.floor`, which agrees with it on the
non-negative ratios of the `Collapsing` branch. -/
def generate_alert_message (bucket : String) (status : WarmthStatus)
    (warmth : WarmthResponse) : String :=
  match status with
  | WarmthStatus.dead =>
      "CRITICAL: Bucket '" ++ bucket ++ "' has gone completely silent. " ++
        "No signals received in the current window. Historical average was " ++
        fmt1 warmth.recent_average ++ " signals per window."
  | WarmthStatus.collapsing =>
      let percentage : Int :=
        if 0 < warmth.recent_average then
          Rat.floor ((warmth.current_window_total : ℚ) / warmth.recent_average * 100)
        else 0
      "WARNING: Bucket '" ++ bucket ++ "' is collapsing. Current activity (" ++
        toString warmth.current_window_total ++ ") is only " ++
        toString percentage ++ "% of recent average (" ++
        fmt1 warmth.recent_average ++ ")."
  | other => "Bucket '" ++ bucket ++ "' status: " ++ other.debugName

namespace EStore

/-- `storage.rs` `Storage` as the abstract fallible-query contract: every
query either answers or surfaces a storage-layer error
(`anyhow::Result` modelled as `Except String`). -/
structure Store where
  query_bucket_window : String → Nat → Nat → Except String Int
  compute_recent_average : String → Nat → Nat → Nat → Except String ℚ
  get_last_seen : String → Except String (Option Nat)
  get_all_known_buckets : Except String (List String)

/-- `aggregation.rs` `compute_warmth` over the fallible store: propagates
any store error with `?`, no retries. -/
def compute_warmth (storage : Store) (bucket : String)
    (window_minutes now : Nat) : Except String WarmthResponse := do
  let current_window_total ← storage.query_bucket_window bucket window_minutes now
  let recent_average ←
    storage.compute_recent_average bucket window_minutes NUM_HISTORICAL_WINDOWS now
  pure { bucket := bucket
         window_minutes := window_minutes
         current_window_total := current_window_total
         recent_average := recent_average
         status := WarmthStatus.from_activity current_window_total recent_average }

/-- The per-bucket loop body of `aggregation.rs` `generate_alerts`: compute
warmth, keep `Collapsing`/`Dead` buckets, fetch `last_seen` for kept
buckets, render the message; any error aborts the whole loop. -/
def alerts_loop (storage : Store) (window_minutes now : Nat) :
    List String → Except String (List Alert)
  | [] => Except.ok []
  | bucket :: rest => do
    let warmth ← compute_warmth storage bucket window_minutes now
    if warmth.status = WarmthStatus.collapsing ∨ warmth.status = WarmthStatus.dead then
      let last_seen ← storage.get_last_seen bucket
      let message := generate_alert_message bucket warmth.status warmth
      let tail ← alerts_loop storage window_minutes now rest
      pure ({ bucket := bucket
              status := warmth.status
              last_seen_timestamp := last_seen
              recent_average := warmth.recent_average
              message := message } :: tail)
    else
      alerts_loop storage window_minutes now rest

/-- `aggregation.rs` `generate_alerts`: caps the window at 10 minutes,
scans all known buckets, echoes the original lookback. -/
def generate_alerts (storage : Store) (lookback_minutes now : Nat) :
    Except String AlertsResponse := do
  let window_minutes := min lookback_minutes 10
  let buckets ← storage.get_all_known_buckets
  let alerts ← alerts_loop storage window_minutes now buckets
  pure { alerts := alerts, lookback_minutes := lookback_minutes }

end EStore

/-- The fallible store backed by the pure list-of-signals model: every
query succeeds with the SQL semantics embedded above. -/
def dbStore (db : List Signal) : EStore.Store :=
  { query_bucket_window := fun b wm now => Except.ok (query_bucket_window db b wm now)
    compute_recent_average := fun b wm n now =>
      Except.ok (compute_recent_average db b wm n now)
    get_last_seen := fun b => Except.ok (get_last_seen db b)
    get_all_known_buckets := Except.ok (get_all_known_buckets db) }

theorem dbStore_compute_warmth (db : List Signal) (bucket : String)
    (window_minutes now : Nat) :
    EStore.compute_warmth (dbStore db) bucket window_minutes now =
      Except.ok (compute_warmth db bucket window_minutes now) := rfl

theorem dbStore_get_last_seen (db : List Signal) (bucket : String) :
    (dbStore db).get_last_seen bucket = Except.ok (get_last_seen db bucket) := rfl

theorem dbStore_get_all_known_buckets (db : List Signal) :
    (dbStore db).get_all_known_buckets = Except.ok (get_all_known_buckets db) := rfl

theorem dbStore_alerts_loop (db : List Signal) (wm now : Nat) (l : List String) :
    EStore.alerts_loop (dbStore db) wm now l =
      Except.ok ((l.filter (fun b =>
        decide ((compute_warmth db b wm now).status = WarmthStatus.collapsing ∨
          (compute_warmth db b wm now).status = WarmthStatus.dead))).map
        (fun b =>
          { bucket := b
            status := (compute_warmth db b wm now).status
            last_seen_timestamp := get_last_seen db b
            recent_average := (compute_warmth db b wm now).recent_average
            message := generate_alert_message b (compute_warmth db b wm now).status
              (compute_warmth db b wm now) })) := by
  induction l with
  | nil => rfl
  | cons b rest ih =>
    by_cases hd : (compute_warmth db b wm now).status = WarmthStatus.collapsing ∨
        (compute_warmth db b wm now).status = WarmthStatus.dead
    · simp [EStore.alerts_loop, dbStore_compute_warmth, dbStore_get_last_seen,
        List.filter_cons, hd, bind, Except.bind, pure, Except.pure, ih]
    · simp [EStore.alerts_loop, dbStore_compute_warmth, dbStore_get_last_seen,
        List.filter_cons, hd, bind, Except.bind, pure, Except.pure, ih]

/-- C6: over any signal store, `generate_alerts` computes every per-bucket
warmth with window `min lookback_minutes 10`, keeps exactly the buckets
whose status is `Collapsing` or `Dead`, and echoes the original, uncapped
`lookback_minutes` in the response. -/
theorem generate_alerts_caps_window_and_filters (db : List Signal)
    (lookback_minutes now : Nat) :
    EStore.generate_alerts (dbStore db) lookback_minutes now =
      Except.ok
        { alerts := (((get_all_known_buckets db).filter (fun b =>
            decide ((compute_warmth db b (min lookback_minutes 10) now).status =
                WarmthStatus.collapsing ∨
              (compute_warmth db b (min lookback_minutes 10) now).status =
                WarmthStatus.dead))).map
            (fun b =>
              { bucket := b
                status := (compute_warmth db b (min lookback_minutes 10) now).status
                last_seen_timestamp := get_last_seen db b
                recent_average :=
                  (compute_warmth db b (min lookback_minutes 10) now).recent_average
                message := generate_alert_message b
                  (compute_warmth db b (min lookback_minutes 10) now).status
                  (compute_warmth db b (min lookback_minutes 10) now) }))
          lookback_minutes := lookback_minutes } := by
  simp only [EStore.generate_alerts, dbStore_get_all_known_buckets, bind,
    Except.bind, dbStore_alerts_loop, pure, Except.pure]

theorem alerts_loop_error_of_bad (storage : EStore.Store) (wm now : Nat) :
    ∀ l : List String,
    (∃ b ∈ l,
      (∃ e, EStore.compute_warmth storage b wm now = Except.error e) ∨
      (∃ w, EStore.compute_warmth storage b wm now = Except.ok w ∧
        (w.status = WarmthStatus.collapsing ∨ w.status = WarmthStatus.dead) ∧
        ∃ e, storage.get_last_seen b = Except.error e)) →
    ∃ e, EStore.alerts_loop storage wm now l = Except.error e := by
  intro l
  induction l with
  | nil => rintro ⟨b, hb, -⟩; cases hb
  | cons b rest ih =>
    rintro ⟨b', hb', hbad⟩
    rcases List.mem_cons.mp hb' with rfl | hmem
    · rcases hbad with ⟨e, hw⟩ | ⟨w, hw, hdist, e, hls⟩
      · exact ⟨e, by simp only [EStore.alerts_loop, hw, bind, Except.bind]⟩
      · refine ⟨e, ?_⟩
        simp only [EStore.alerts_loop, hw, bind, Except.bind]
        rw [if_pos hdist]
        simp only [hls]
    · rcases hw : EStore.compute_warmth storage b wm now with e | w
      · exact ⟨e, by simp only [EStore.alerts_loop, hw, bind, Except.bind]⟩
      · by_cases hdist : w.status = WarmthStatus.collapsing ∨ w.status = WarmthStatus.dead
        · rcases hls : storage.get_last_seen b with e | ls
          · refine ⟨e, ?_⟩
            simp only [EStore.alerts_loop, hw, bind, Except.bind]
            rw [if_pos hdist]
            simp only [hls]
          · obtain ⟨e, htail⟩ := ih ⟨b', hmem, hbad⟩
            refine ⟨e, ?_⟩
            simp only [EStore.alerts_loop, hw, bind, Except.bind]
            rw [if_pos hdist]
            simp only [hls, htail]
        · obtain ⟨e, htail⟩ := ih ⟨b', hmem, hbad⟩
          refine ⟨e, ?_⟩
          simp only [EStore.alerts_loop, hw, bind, Except.bind]
          rw [if_neg hdist]
          exact htail

/-- C5: if any per-bucket store query performed during the
`generate_alerts` scan fails — the warmth computation of some known bucket,
or the `last_seen` lookup of a kept (distressed) bucket — then
`generate_alerts` returns a storage error and no alert list at all. -/
theorem generate_alerts_aborts_on_error (storage : EStore.Store)
    (lookback_minutes now : Nat) (buckets : List String)
    (hb : storage.get_all_known_buckets = Except.ok buckets)
    (hbad : ∃ b ∈ buckets,
      (∃ e, EStore.compute_warmth storage b (min lookback_minutes 10) now =
        Except.error e) ∨
      (∃ w, EStore.compute_warmth storage b (min lookback_minutes 10) now =
          Except.ok w ∧
        (w.status = WarmthStatus.collapsing ∨ w.status = WarmthStatus.dead) ∧
        ∃ e, storage.get_last_seen b = Except.error e)) :
    ∃ e, EStore.generate_alerts storage lookback_minutes now = Except.error e := by
  obtain ⟨e, hloop⟩ :=
    alerts_loop_error_of_bad storage (min lookback_minutes 10) now buckets hbad
  refine ⟨e, ?_⟩
  simp only [EStore.generate_alerts, hb, bind, Except.bind, hloop]

/-- A store whose window query always fails: used to witness C5. -/
def failingStore : EStore.Store :=
  { query_bucket_window := fun _ _ _ => Except.error "storage failure"
    compute_recent_average := fun _ _ _ _ => Except.ok 0
    get_last_seen := fun _ => Except.ok none
    get_all_known_buckets := Except.ok ["zone-a"] }

/-- Witness for C5: on a store with one bucket whose window query errors,
the whole scan errors. -/
theorem generate_alerts_aborts_on_error_witness :
    failingStore.get_all_known_buckets = Except.ok ["zone-a"] ∧
    ∃ e, EStore.generate_alerts failingStore 60 0 = Except.error e := by
  refine ⟨rfl, ?_⟩
  exact generate_alerts_aborts_on_error failingStore 60 0 ["zone-a"] rfl
    ⟨"zone-a", by simp, Or.inl ⟨"storage failure", rfl⟩⟩

/-- `dashboard.rs` `IssueSeverity`; Rust `derive(Ord)` orders by declaration:
`Info < Warning < Critical < Emergency`. -/
inductive IssueSeverity where
  | info
  | warning
  | critical
  | emergency
  deriving DecidableEq, Repr

/-- The ordinal of the derived Rust `Ord` on `IssueSeverity`. -/
def IssueSeverity.rank : IssueSeverity → Nat
  | IssueSeverity.info => 0
  | IssueSeverity.warning => 1
  | IssueSeverity.critical => 2
  | IssueSeverity.emergency => 3

/-- `dashboard.rs` `IssueSeverity::label`. -/
def IssueSeverity.label : IssueSeverity → String
  | IssueSeverity.info => "Info"
  | IssueSeverity.warning => "Warning"
  | IssueSeverity.critical => "Critical"
  | IssueSeverity.emergency => "Emergency"

/-- `dashboard.rs` `IssueSource`. -/
inductive IssueSource where
  | ioda
  | cloudflareRadar
  | hdxHapi
  | acled
  | reliefWeb
  deriving DecidableEq, Repr

/-- `dashboard.rs` `IssueSource::label`. -/
def IssueSource.label : IssueSource → String
  | IssueSource.ioda => "IODA"
  | IssueSource.cloudflareRadar => "Cloudflare Radar"
  | IssueSource.hdxHapi => "HDX HAPI"
  | IssueSource.acled => "ACLED"
  | IssueSource.reliefWeb => "ReliefWeb"

/-- `dashboard.rs` `IssueCategory`. -/
inductive IssueCategory where
  | internetOutage
  | trafficAnomaly
  | conflict
  | foodSecurity
  | displacement
  | disaster
  | humanitarianEmergency
  deriving DecidableEq, Repr

/-- `dashboard.rs` `IssueCategory::label`. -/
def IssueCategory.label : IssueCategory → String
  | IssueCategory.internetOutage => "Internet Outage"
  | IssueCategory.trafficAnomaly => "Traffic Anomaly"
  | IssueCategory.conflict => "Conflict"
  | IssueCategory.foodSecurity => "Food Security"
  | IssueCategory.displacement => "Displacement"
  | IssueCategory.disaster => "Disaster"
  | IssueCategory.humanitarianEmergency => "Humanitarian Emergency"

/-- Rust `str::to_lowercase` on the ASCII strings that occur here. -/
def lowercaseStr (s : String) : String := String.mk (s.data.map Char.toLower)

/-- Rust `str::replace(' ', "_")`: every space becomes an underscore. -/
def replaceSpaces (s : String) : String :=
  String.mk (s.data.map (fun c => if c = ' ' then '_' else c))

/-- `dashboard.rs` `Issue`: the unified cross-provider record.  Timestamps
are Unix seconds (`Int`), the metadata `HashMap` is an association list,
`impact_value: Option<f64>` is `Option ℚ`. -/
structure Issue where
  id : String
  source : IssueSource
  category : IssueCategory
  severity : IssueSeverity
  location : String
  location_code : String
  title : String
  description : String
  timestamp : Int
  end_timestamp : Option Int
  is_ongoing : Bool
  impact_value : Option ℚ
  impact_label : Option String
  url : Option String
  metadata : List (String × String)
  deriving DecidableEq, Repr

/-- `dashboard.rs` `Issue::new`: builds the deterministic id
`format!("{}:{}:{}:{}", source.label().to_lowercase().replace(' ', "_"),
category.label().to_lowercase().replace(' ', "_"), location_code.to_lowercase(),
timestamp.timestamp())` and the default field values. -/
def Issue.new (source : IssueSource) (category : IssueCategory)
    (severity : IssueSeverity) (location location_code title description : String)
    (timestamp : Int) : Issue :=
  { id := replaceSpaces (lowercaseStr source.label) ++ ":" ++
      replaceSpaces (lowercaseStr category.label) ++ ":" ++
      lowercaseStr location_code ++ ":" ++ toString timestamp
    source := source
    category := category
    severity := severity
    location := location
    location_code := location_code
    title := title
    description := description
    timestamp := timestamp
    end_timestamp := none
    is_ongoing := true
    impact_value := none
    impact_label := none
    url := none
    metadata := [] }

example :
    (Issue.new IssueSource.ioda IssueCategory.internetOutage
      IssueSeverity.critical "Ukraine" "UA" "t" "d" 100).id =
    "ioda:internet_outage:ua:100" := by decide

/-- Counterexample for C7: for a source or category whose label contains a
space, the id is NOT `lowercase(source_label) ':' lowercase(category_label)
':' lowercase(location_code) ':' unix_timestamp` — the code additionally
replaces spaces with underscores in the two labels. -/
theorem issue_id_counterexample :
    (Issue.new IssueSource.cloudflareRadar IssueCategory.trafficAnomaly
      IssueSeverity.warning "Ukraine" "UA" "t" "d" 100).id ≠
      lowercaseStr IssueSource.cloudflareRadar.label ++ ":" ++
      lowercaseStr IssueCategory.trafficAnomaly.label ++ ":" ++
      lowercaseStr "UA" ++ ":" ++ toString (100 : Int) := by decide

/-- C7 amended: the id equals the lowercased source label with spaces
replaced by underscores, `':'`, the lowercased category label with spaces
replaced by underscores, `':'`, the lowercased location code, `':'`, the
Unix timestamp. -/
theorem issue_id_amended (source : IssueSource) (category : IssueCategory)
    (severity : IssueSeverity)
    (location location_code title description : String) (timestamp : Int) :
    (Issue.new source category severity location location_code title
      description timestamp).id =
      replaceSpaces (lowercaseStr source.label) ++ ":" ++
      replaceSpaces (lowercaseStr category.label) ++ ":" ++
      lowercaseStr location_code ++ ":" ++ toString timestamp := rfl

/-- `dashboard.rs` `SourceError`. -/
structure SourceError where
  source : IssueSource
  message : String
  deriving DecidableEq, Repr

/-- `dashboard.rs` `CountryIssueCount`. -/
structure CountryIssueCount where
  country : String
  count : Nat
  deriving DecidableEq, Repr

/-- `dashboard.rs` `DashboardSummary`; the two `HashMap<String, usize>`
fields are association lists in first-insertion order (the invariants
proved below do not depend on entry order). -/
structure DashboardSummary where
  total_issues : Nat
  emergency_count : Nat
  critical_count : Nat
  warning_count : Nat
  info_count : Nat
  by_source : List (String × Nat)
  by_category : List (String × Nat)
  top_countries : List CountryIssueCount
  deriving DecidableEq, Repr

/-- `HashMap` `*entry(k).or_insert(0) += 1`: increment the count of `k`,
inserting it at count `1` when absent. -/
def bump (m : List (String × Nat)) (k : String) : List (String × Nat) :=
  match m with
  | [] => [(k, 1)]
  | (k', c) :: rest =>
    if k' = k then (k', c + 1) :: rest else (k', c) :: bump rest k

/-- The occurrence-count map of `key` over `issues`: the single counting
pass of `DashboardSummary::from_issues`, one `bump` per issue (the three
maps of the Rust pass evolve independently, so each is its own fold). -/
def count_by (key : Issue → String) (issues : List Issue) :
    List (String × Nat) :=
  issues.foldl (fun m i => bump m (key i)) []

/-- `dashboard.rs` `DashboardSummary::from_issues`: per-severity counts,
label-keyed source/category maps, location-keyed country map, and the top
10 countries after a stable descending sort by count. -/
def DashboardSummary.from_issues (issues : List Issue) : DashboardSummary :=
  { total_issues := issues.length
    emergency_count := issues.countP (fun i => i.severity == IssueSeverity.emergency)
    critical_count := issues.countP (fun i => i.severity == IssueSeverity.critical)
    warning_count := issues.countP (fun i => i.severity == IssueSeverity.warning)
    info_count := issues.countP (fun i => i.severity == IssueSeverity.info)
    by_source := count_by (fun i => i.source.label) issues
    by_category := count_by (fun i => i.category.label) issues
    top_countries :=
      (((count_by (fun i => i.location) issues).mergeSort
          (fun a b => decide (b.2 ≤ a.2))).take 10).map
        (fun p => { country := p.1, count := p.2 }) }

/-- `dashboard.rs` `DashboardResponse`. -/
structure DashboardResponse where
  timestamp : Int
  summary : DashboardSummary
  issues : List Issue
  errors : List SourceError
  deriving Repr

/-- The comparator of the `get_all_issues` sort:
`b.severity.cmp(&a.severity).then_with(|| b.timestamp.cmp(&a.timestamp))`.
`issue_le a b` holds exactly when that comparator does not order `a` after
`b`: severity descending, then timestamp descending. -/
def issue_le (a b : Issue) : Bool :=
  decide (b.severity.rank < a.severity.rank ∨
    (a.severity.rank = b.severity.rank ∧ b.timestamp ≤ a.timestamp))

/-- Rust `Vec::sort_by` is a stable sort; with the comparator above it is
the stable merge sort by `issue_le`. -/
def sortIssues (l : List Issue) : List Issue := l.mergeSort issue_le

/-- `dashboard.rs` `Dashboard::get_all_issues`: the five adapter fetches
run concurrently and are all awaited (`tokio::join!` barrier); their
completed results are the five `Except` arguments, in join order.  Each
`Ok` extends the merged list, each `Err` appends one `SourceError`; the
merged list is sorted, summarized, and returned in an `Ok` response. -/
def get_all_issues (now : Int)
    (ioda_result cloudflare_result hdx_result reliefweb_result acled_result :
      Except String (List Issue)) : Except String DashboardResponse :=
  let step := fun (acc : List Issue × List SourceError)
      (r : Except String (List Issue)) (src : IssueSource) =>
    match r with
    | Except.ok issues => (acc.1 ++ issues, acc.2)
    | Except.error e => (acc.1, acc.2 ++ [{ source := src, message := e }])
  let acc0 : List Issue × List SourceError := ([], [])
  let acc1 := step acc0 ioda_result IssueSource.ioda
  let acc2 := step acc1 cloudflare_result IssueSource.cloudflareRadar
  let acc3 := step acc2 hdx_result IssueSource.hdxHapi
  let acc4 := step acc3 reliefweb_result IssueSource.reliefWeb
  let acc5 := step acc4 acled_result IssueSource.acled
  let all_issues := sortIssues acc5.1
  let summary := DashboardSummary.from_issues all_issues
  Except.ok
    { timestamp := now
      summary := summary
      issues := all_issues
      errors := acc5.2 }

/-- The issues of a successful adapter result, `[]` for a failed one. -/
def okIssues (r : Except String (List Issue)) : List Issue :=
  match r with
  | Except.ok l => l
  | Except.error _ => []

/-- The single `SourceError` of a failed adapter result, `[]` for a
successful one. -/
def errEntry (r : Except String (List Issue)) (src : IssueSource) :
    List SourceError :=
  match r with
  | Except.ok _ => []
  | Except.error e => [{ source := src, message := e }]

/-- The merged (pre-sort) issue list of `get_all_issues`. -/
def mergedIssues (r1 r2 r3 r4 r5 : Except String (List Issue)) : List Issue :=
  okIssues r1 ++ okIssues r2 ++ okIssues r3 ++ okIssues r4 ++ okIssues r5

/-- The error list of `get_all_issues`, one entry per failed adapter in
join order. -/
def mergedErrors (r1 r2 r3 r4 r5 : Except String (List Issue)) :
    List SourceError :=
  errEntry r1 IssueSource.ioda ++ errEntry r2 IssueSource.cloudflareRadar ++
    errEntry r3 IssueSource.hdxHapi ++ errEntry r4 IssueSource.reliefWeb ++
    errEntry r5 IssueSource.acled

theorem get_all_issues_eq (now : Int)
    (r1 r2 r3 r4 r5 : Except String (List Issue)) :
    get_all_issues now r1 r2 r3 r4 r5 =
      Except.ok
        { timestamp := now
          summary := DashboardSummary.from_issues
            (sortIssues (mergedIssues r1 r2 r3 r4 r5))
          issues := sortIssues (mergedIssues r1 r2 r3 r4 r5)
          errors := mergedErrors r1 r2 r3 r4 r5 } := by
  cases r1 <;> cases r2 <;> cases r3 <;> cases r4 <;> cases r5 <;>
    simp [get_all_issues, mergedIssues, mergedErrors, okIssues, errEntry,
      List.append_assoc]

/-- C2: `get_all_issues` always returns `Ok`; every successful adapter's
issues are in the merged (and hence the returned, sorted) list, every
failed adapter contributes exactly one `{source, message}` error entry, and
a failing provider never removes another provider's issues. -/
theorem get_all_issues_isolates_failures (now : Int)
    (r1 r2 r3 r4 r5 : Except String (List Issue)) :
    get_all_issues now r1 r2 r3 r4 r5 =
      Except.ok
        { timestamp := now
          summary := DashboardSummary.from_issues
            (sortIssues (mergedIssues r1 r2 r3 r4 r5))
          issues := sortIssues (mergedIssues r1 r2 r3 r4 r5)
          errors := mergedErrors r1 r2 r3 r4 r5 } ∧
    (∀ i : Issue, i ∈ sortIssues (mergedIssues r1 r2 r3 r4 r5) ↔
      i ∈ okIssues r1 ∨ i ∈ okIssues r2 ∨ i ∈ okIssues r3 ∨
        i ∈ okIssues r4 ∨ i ∈ okIssues r5) ∧
    mergedErrors r1 r2 r3 r4 r5 =
      errEntry r1 IssueSource.ioda ++ errEntry r2 IssueSource.cloudflareRadar ++
        errEntry r3 IssueSource.hdxHapi ++ errEntry r4 IssueSource.reliefWeb ++
        errEntry r5 IssueSource.acled := by
  refine ⟨get_all_issues_eq now r1 r2 r3 r4 r5, ?_, rfl⟩
  intro i
  simp [sortIssues, mergedIssues, or_assoc]

theorem issue_le_trans : ∀ a b c : Issue,
    issue_le a b → issue_le b c → issue_le a c := by
  intro a b c hab hbc
  simp only [issue_le, decide_eq_true_eq] at *
  omega

theorem issue_le_total : ∀ a b : Issue, issue_le a b || issue_le b a := by
  intro a b
  simp only [issue_le, Bool.or_eq_true, decide_eq_true_eq]
  omega

/-- C4: the issues list returned by `get_all_issues` is the stable sort of
the merged list by `(severity desc, timestamp desc)`: it is a permutation
of the merged list, pairwise ordered with higher severity first and, within
equal severity, newer timestamps first, and any two issues with equal
`(severity, timestamp)` keys keep their pre-sort relative order. -/
theorem get_all_issues_sorted (now : Int)
    (r1 r2 r3 r4 r5 : Except String (List Issue)) :
    (∃ resp, get_all_issues now r1 r2 r3 r4 r5 = Except.ok resp ∧
      resp.issues = sortIssues (mergedIssues r1 r2 r3 r4 r5)) ∧
    List.Perm (sortIssues (mergedIssues r1 r2 r3 r4 r5))
      (mergedIssues r1 r2 r3 r4 r5) ∧
    (sortIssues (mergedIssues r1 r2 r3 r4 r5)).Pairwise (fun a b =>
      b.severity.rank < a.severity.rank ∨
        (a.severity.rank = b.severity.rank ∧ b.timestamp ≤ a.timestamp)) ∧
    (∀ a b : Issue, a.severity = b.severity → a.timestamp = b.timestamp →
      List.Sublist [a, b] (mergedIssues r1 r2 r3 r4 r5) →
      List.Sublist [a, b] (sortIssues (mergedIssues r1 r2 r3 r4 r5))) := by
  refine ⟨⟨_, get_all_issues_eq now r1 r2 r3 r4 r5, rfl⟩, ?_, ?_, ?_⟩
  · exact List.mergeSort_perm (mergedIssues r1 r2 r3 r4 r5) issue_le
  · refine List.Pairwise.imp ?_
      (List.sorted_mergeSort issue_le_trans issue_le_total
        (mergedIssues r1 r2 r3 r4 r5))
    intro a b h
    simpa only [issue_le, decide_eq_true_eq] using h
  · intro a b hsev hts hsub
    refine List.pair_sublist_mergeSort issue_le_trans issue_le_total ?_ hsub
    simp only [issue_le, decide_eq_true_eq]
    exact Or.inr ⟨by rw [hsev], le_of_eq hts.symm⟩

/-- Rust `str::eq_ignore_ascii_case`: equality after ASCII lowercasing. -/
def eq_ignore_ascii_case (a b : String) : Bool :=
  lowercaseStr a == lowercaseStr b

/-- Substring test on character lists: the needle is a prefix of some
suffix of the haystack. -/
def charsContain : List Char → List Char → Bool
  | needle, [] => needle.isEmpty
  | needle, c :: rest => needle.isPrefixOf (c :: rest) || charsContain needle rest

/-- Rust `str::contains(&str)`: substring test. -/
def containsSubstr (haystack needle : String) : Bool :=
  charsContain needle.data haystack.data

/-- The filter predicate of `Dashboard::get_issues_by_country`:
`location_code` equal to the filter ignoring ASCII case, OR the lowercased
`location` containing the lowercased filter as a substring. -/
def country_filter (country_code : String) (i : Issue) : Bool :=
  eq_ignore_ascii_case i.location_code country_code ||
    containsSubstr (lowercaseStr i.location) (lowercaseStr country_code)

/-- `dashboard.rs` `Dashboard::get_issues_by_country`: fetch everything,
then filter. -/
def get_issues_by_country (now : Int)
    (r1 r2 r3 r4 r5 : Except String (List Issue)) (country_code : String) :
    Except String (List Issue) :=
  match get_all_issues now r1 r2 r3 r4 r5 with
  | Except.error e => Except.error e
  | Except.ok all => Except.ok (all.issues.filter (country_filter country_code))

/-- C8: `get_issues_by_country` keeps an issue of `get_all_issues` iff its
`location_code` equals the filter case-insensitively or its `location`
contains the filter case-insensitively as a substring; in particular
`location_code "UA"` matches filter `"ua"`, a location containing
`"Ukraine"` matches filter `"ukraine"`, and `location_code "UKR"` does not
match filter `"uk"` when the location does not contain it. -/
theorem get_issues_by_country_spec (now : Int)
    (r1 r2 r3 r4 r5 : Except String (List Issue)) (code : String) :
    (∃ lst, get_issues_by_country now r1 r2 r3 r4 r5 code = Except.ok lst ∧
      ∀ i : Issue, i ∈ lst ↔
        i ∈ sortIssues (mergedIssues r1 r2 r3 r4 r5) ∧
          (eq_ignore_ascii_case i.location_code code = true ∨
            containsSubstr (lowercaseStr i.location) (lowercaseStr code) =
              true)) ∧
    country_filter "ua" (Issue.new IssueSource.ioda
      IssueCategory.internetOutage IssueSeverity.critical
      "Ukraine" "UA" "t" "d" 0) = true ∧
    country_filter "ukraine" (Issue.new IssueSource.ioda
      IssueCategory.internetOutage IssueSeverity.critical
      "Eastern Ukraine Region" "XX" "t" "d" 0) = true ∧
    country_filter "uk" (Issue.new IssueSource.acled IssueCategory.conflict
      IssueSeverity.warning "Donbas" "UKR" "t" "d" 0) = false := by
  refine ⟨?_, by decide, by decide, by decide⟩
  rw [get_issues_by_country, get_all_issues_eq]
  refine ⟨_, rfl, ?_⟩
  intro i
  simp [List.mem_filter, country_filter, Bool.or_eq_true]

/-- Total of the counts held in an association-list count map. -/
def sumCounts (m : List (String × Nat)) : Nat := (m.map (fun p => p.2)).sum

theorem sumCounts_bump (m : List (String × Nat)) (k : String) :
    sumCounts (bump m k) = sumCounts m + 1 := by
  induction m with
  | nil => rfl
  | cons p rest ih =>
    rcases p with ⟨k', c⟩
    by_cases h : k' = k
    · simp only [bump, if_pos h, sumCounts, List.map_cons, List.sum_cons]
      omega
    · simp only [bump, if_neg h, sumCounts, List.map_cons, List.sum_cons] at ih ⊢
      omega

theorem sumCounts_foldl (key : Issue → String) (l : List Issue) :
    ∀ m, sumCounts (l.foldl (fun m i => bump m (key i)) m) =
      sumCounts m + l.length := by
  induction l with
  | nil => intro m; simp
  | cons i rest ih =>
    intro m
    simp only [List.foldl_cons, List.length_cons]
    rw [ih (bump m (key i)), sumCounts_bump]
    omega

theorem sumCounts_count_by (key : Issue → String) (l : List Issue) :
    sumCounts (count_by key l) = l.length := by
  have h := sumCounts_foldl key l []
  simpa [count_by, sumCounts] using h

theorem bump_entry_pos (m : List (String × Nat)) (k : String)
    (hm : ∀ p ∈ m, 1 ≤ p.2) : ∀ p ∈ bump m k, 1 ≤ p.2 := by
  induction m with
  | nil =>
    intro p hp
    simp only [bump, List.mem_singleton] at hp
    simp [hp]
  | cons q rest ih =>
    rcases q with ⟨k', c⟩
    intro p hp
    by_cases h : k' = k
    · simp only [bump, if_pos h, List.mem_cons] at hp
      rcases hp with rfl | hp
      · have h1 := hm (k', c) (List.mem_cons_self _ _)
        exact Nat.le_succ_of_le h1
      · exact hm p (List.mem_cons_of_mem _ hp)
    · simp only [bump, if_neg h, List.mem_cons] at hp
      rcases hp with rfl | hp
      · exact hm (k', c) (List.mem_cons_self _ _)
      · exact ih (fun q hq => hm q (List.mem_cons_of_mem _ hq)) p hp

theorem count_by_entry_pos (key : Issue → String) (l : List Issue) :
    ∀ p ∈ count_by key l, 1 ≤ p.2 := by
  suffices h : ∀ m : List (String × Nat), (∀ p ∈ m, 1 ≤ p.2) →
      ∀ p ∈ l.foldl (fun m i => bump m (key i)) m, 1 ≤ p.2 by
    exact h [] (by simp)
  induction l with
  | nil => intro m hm; simpa using hm
  | cons i rest ih =>
    intro m hm
    simp only [List.foldl_cons]
    exact ih (bump m (key i)) (bump_entry_pos m (key i) hm)

theorem count_desc_trans (a b c : String × Nat)
    (h1 : decide (b.2 ≤ a.2) = true) (h2 : decide (c.2 ≤ b.2) = true) :
    decide (c.2 ≤ a.2) = true := by
  simp only [decide_eq_true_eq] at *
  omega

theorem count_desc_total (a b : String × Nat) :
    (decide (b.2 ≤ a.2) || decide (a.2 ≤ b.2)) = true := by
  simp only [Bool.or_eq_true, decide_eq_true_eq]
  omega

theorem sev_counts_sum (l : List Issue) :
    l.countP (fun i => i.severity == IssueSeverity.emergency) +
      l.countP (fun i => i.severity == IssueSeverity.critical) +
      l.countP (fun i => i.severity == IssueSeverity.warning) +
      l.countP (fun i => i.severity == IssueSeverity.info) = l.length := by
  induction l with
  | nil => rfl
  | cons i rest ih =>
    cases h : i.severity <;>
      simp only [List.countP_cons, List.length_cons, h] <;>
      simp <;> omega

/-- C9: the summary built by `from_issues` satisfies: the four severity
counts sum to `total_issues`, which is the length of the input list; the
`by_source` and `by_category` counts each sum to `total_issues`;
`top_countries` has at most 10 entries, each with count at least 1, in
non-increasing count order. -/
theorem summary_invariants (issues : List Issue) :
    (DashboardSummary.from_issues issues).emergency_count +
      (DashboardSummary.from_issues issues).critical_count +
      (DashboardSummary.from_issues issues).warning_count +
      (DashboardSummary.from_issues issues).info_count =
      (DashboardSummary.from_issues issues).total_issues ∧
    (DashboardSummary.from_issues issues).total_issues = issues.length ∧
    sumCounts (DashboardSummary.from_issues issues).by_source =
      (DashboardSummary.from_issues issues).total_issues ∧
    sumCounts (DashboardSummary.from_issues issues).by_category =
      (DashboardSummary.from_issues issues).total_issues ∧
    (DashboardSummary.from_issues issues).top_countries.length ≤ 10 ∧
    (∀ p ∈ (DashboardSummary.from_issues issues).top_countries, 1 ≤ p.count) ∧
    (DashboardSummary.from_issues issues).top_countries.Pairwise
      (fun a b => b.count ≤ a.count) := by
  refine ⟨sev_counts_sum issues, rfl, sumCounts_count_by _ issues,
    sumCounts_count_by _ issues, ?_, ?_, ?_⟩
  · simp only [DashboardSummary.from_issues, List.length_map]
    exact List.length_take_le 10 _
  · intro p hp
    simp only [DashboardSummary.from_issues, List.mem_map] at hp
    obtain ⟨q, hq, rfl⟩ := hp
    have hq' : q ∈ (count_by (fun i => i.location) issues).mergeSort
        (fun a b => decide (b.2 ≤ a.2)) := List.mem_of_mem_take hq
    rw [List.mem_mergeSort] at hq'
    exact count_by_entry_pos _ issues q hq'
  · simp only [DashboardSummary.from_issues]
    rw [List.pairwise_map]
    refine List.Pairwise.sublist (List.take_sublist 10 _) ?_
    refine List.Pairwise.imp ?_
      (List.sorted_mergeSort count_desc_trans count_desc_total
        (count_by (fun i => i.location) issues))
    intro a b h
    simpa only [decide_eq_true_eq] using h

/-- `dashboard.rs` `Dashboard::new` ACLED construction: the client exists
iff both `acled_email` and `acled_key` are present.  `fetch_outcome`
abstracts what the configured client's fetch over the monitored countries
would return. -/
def mkAcled (acled_email acled_key : Option String)
    (fetch_outcome : Except String (List Issue)) :
    Option (Except String (List Issue)) :=
  match acled_email, acled_key with
  | some _, some _ => some fetch_outcome
  | _, _ => none

/-- `dashboard.rs` `Dashboard::fetch_acled_issues`: when the ACLED client
is absent it returns `Ok(Vec::new())` — success with no issues — otherwise
the configured fetch outcome. -/
def fetch_acled_issues (acled : Option (Except String (List Issue))) :
    Except String (List Issue) :=
  match acled with
  | some r => r
  | none => Except.ok []

theorem errEntry_source (r : Except String (List Issue)) (src : IssueSource) :
    ∀ err ∈ errEntry r src, err.source = src := by
  cases r <;> simp [errEntry]

/-- C10: when the ACLED credentials are not both configured, the adapter is
absent, `fetch_acled_issues` succeeds with an empty list, and
`get_all_issues` records no ACLED `SourceError`; given that the other four
adapters tag their issues with their own sources (as each `fetch_*` does by
construction), the response contains no ACLED-sourced issue — the source is
silently absent rather than reported as failed. -/
theorem acled_unconfigured_is_silent
    (acled_email acled_key : Option String)
    (fetch_outcome : Except String (List Issue)) (now : Int)
    (r1 r2 r3 r4 : Except String (List Issue))
    (hcfg : acled_email = none ∨ acled_key = none) :
    mkAcled acled_email acled_key fetch_outcome = none ∧
    fetch_acled_issues (mkAcled acled_email acled_key fetch_outcome) =
      Except.ok [] ∧
    ∀ resp, get_all_issues now r1 r2 r3 r4
        (fetch_acled_issues (mkAcled acled_email acled_key fetch_outcome)) =
        Except.ok resp →
      (∀ err ∈ resp.errors, err.source ≠ IssueSource.acled) ∧
      ((∀ i, i ∈ okIssues r1 ∨ i ∈ okIssues r2 ∨ i ∈ okIssues r3 ∨
          i ∈ okIssues r4 → i.source ≠ IssueSource.acled) →
        ∀ i ∈ resp.issues, i.source ≠ IssueSource.acled) := by
  have hnone : mkAcled acled_email acled_key fetch_outcome = none := by
    rcases hcfg with h | h <;> rw [h] <;> unfold mkAcled
    · rfl
    · cases acled_email <;> rfl
  refine ⟨hnone, by rw [hnone]; rfl, ?_⟩
  intro resp hresp
  rw [hnone] at hresp
  rw [get_all_issues_eq] at hresp
  have hr : resp = _ := (Except.ok.inj hresp).symm
  subst hr
  constructor
  · intro err herr
    simp only [mergedErrors, List.mem_append] at herr
    rcases herr with (((hh | hh) | hh) | hh) | hh
    · rw [errEntry_source r1 IssueSource.ioda err hh]; decide
    · rw [errEntry_source r2 IssueSource.cloudflareRadar err hh]; decide
    · rw [errEntry_source r3 IssueSource.hdxHapi err hh]; decide
    · rw [errEntry_source r4 IssueSource.reliefWeb err hh]; decide
    · exact absurd hh (List.not_mem_nil err)
  · intro hothers i hi
    simp only [sortIssues, List.mem_mergeSort, mergedIssues,
      fetch_acled_issues, okIssues, List.append_nil, List.mem_append] at hi
    refine hothers i ?_
    tauto

/-- Witness for C10: with a missing email the adapter is absent. -/
theorem acled_unconfigured_is_silent_witness :
    ((none : Option String) = none ∨ (some "key" : Option String) = none) ∧
    mkAcled none (some "key") (Except.error "boom") = none :=
  ⟨Or.inl rfl,
    (acled_unconfigured_is_silent none (some "key") (Except.error "boom") 0
      (Except.ok []) (Except.ok []) (Except.ok []) (Except.ok [])
      (Or.inl rfl)).1⟩
